import Mathlib

/-!
# MultiMediaSourceMuxer (src/Common/MultiMediaSourceMuxer.cpp)

A shallow embedding of the fan-out muxer of ZLMediaKit and the properties of
its reader accounting, recorder control, push-session table, frame fan-out and
idle debounce.

Conventions of the embedding.

* A `shared_ptr` member that may be null is an `Option`; `none` is `nullptr`.
* The C++ `int` additions of `totalReaderCount` are taken in `Int`; reader
  counts are attachment counts and signed overflow is undefined in C++, so no
  wrap-around is modelled.
* The collaborators behind the pointers (protocol muxers, recorders, the ring
  buffer, the timestamp rewriter, the ticker) are not defined in this source
  file.  Each is represented by the data this file observes through its
  interface, and every call this file makes on them is recorded in that data.
* The member `_fmp4` exists only in builds with `ENABLE_MP4`; a build without
  it is the case `_fmp4 = none`, in which every `if (_fmp4)` block is skipped
  just as the preprocessor skips it.
* Every member function is a function from the state before the call to the
  returned value and the state after the call.
-/

namespace mediakit

/-! ## Frames and tracks -/

/-- Media kind of a track or frame (`TrackType`). Only `TrackVideo` is
distinguished by this file; every other kind takes the non-video branch. -/
inductive TrackType where
  | TrackInvalid
  | TrackVideo
  | TrackAudio
  | TrackTitle
  | TrackApplication
  deriving DecidableEq, Repr

/-- An encoded access unit, as far as this file reads it: `getTrackType()`,
`keyFrame()`, `configFrame()`, the two timestamps and the payload. -/
structure Frame where
  trackType : TrackType
  keyFrame : Bool
  configFrame : Bool
  dts : Nat
  pts : Nat
  data : Nat
  deriving DecidableEq, Repr

/-- The part of a frame that timestamp rewriting leaves alone. -/
def Frame.content (f : Frame) : TrackType × Bool × Bool × Nat :=
  (f.trackType, f.keyFrame, f.configFrame, f.data)

/-- An elementary stream description. -/
structure Track where
  trackType : TrackType
  index : Nat
  deriving DecidableEq, Repr

/-- State of a per-track timestamp rewriter (`Stamp`), kept abstract. -/
abbrev Stamp := Nat

/-! ## Recorder kinds and options -/

namespace Recorder

/-- The recorder kind `Recorder::type`. `type_other` stands for every value
that is neither `type_hls` nor `type_mp4` (the `default` label of a switch). -/
inductive type where
  | type_hls
  | type_mp4
  | type_other
  deriving DecidableEq, Repr

end Recorder

/-- The fields of `ProtocolOption` this file reads or writes. -/
structure ProtocolOption where
  modify_stamp : Bool
  mp4_as_player : Bool
  hls_save_path : String
  mp4_save_path : String
  mp4_max_second : Nat
  deriving DecidableEq, Repr

/-! ## Sinks -/

/-- Dynamic class of a sink object, for `dynamic_pointer_cast`. -/
inductive SinkClass where
  | RtmpMediaSourceMuxer
  | RtspMediaSourceMuxer
  | TSMediaSourceMuxer
  | FMP4MediaSourceMuxer
  | HlsRecorder
  | MP4Recorder
  deriving DecidableEq, Repr

/-- A protocol sink or recorder behind a pointer of the muxer.

* `readers` is what `readerCount()` reports, `enabled` what `isEnabled()`
  reports;
* `accept hist f` is what `inputFrame(f)` returns after the frames `hist`
  have been handed in;
* `frames` lists the frames handed in by `inputFrame`, oldest first;
* `tracks` lists the tracks handed in by `addTrack`;
* `listener` tells whether `setListener` was called;
* `option` is the option snapshot the object was built from. -/
structure Sink where
  cls : SinkClass
  readers : Int
  enabled : Bool
  accept : List Frame → Frame → Bool
  frames : List Frame
  tracks : List Track
  listener : Bool
  option : ProtocolOption

/-- The call `sink->readerCount()`. -/
def Sink.readerCount (k : Sink) : Int := k.readers

/-- The call `sink->isEnabled()`. -/
def Sink.isEnabled (k : Sink) : Bool := k.enabled

/-- The call `sink->inputFrame(frame)`: the answer and the sink afterwards. -/
def Sink.inputFrame (k : Sink) (frame : Frame) : Bool × Sink :=
  (k.accept k.frames frame, { k with frames := k.frames ++ [frame] })

/-- The call `sink->addTrack(track)`. -/
def Sink.addTrack (k : Sink) (track : Track) : Sink :=
  { k with tracks := k.tracks ++ [track] }

/-- The call `sink->setListener(self)`. -/
def Sink.setListener (k : Sink) : Sink :=
  { k with listener := true }

/-- The cast `dynamic_pointer_cast<HlsRecorder>(p)`. -/
def dynamic_pointer_cast_HlsRecorder (p : Option Sink) : Option Sink :=
  match p with
  | some k => if k.cls = SinkClass.HlsRecorder then some k else none
  | none => none

/-! ## The GOP cache ring -/

/-- Modelled from the spec: the ring buffer `RingType` of the tool library,
which this file only calls. Following the spec, it "holds frames in arrival
order" and "marks the position of the most recent restart point"; `readers`
is what `readerCount()` reports and `cache` lists every `write(frame, is_key)`
in arrival order with its flag. -/
structure Ring where
  readers : Int
  cache : List (Frame × Bool)
  deriving DecidableEq, Repr

/-- The call `ring->readerCount()`. -/
def Ring.readerCount (r : Ring) : Int := r.readers

/-- The call `ring->write(frame, is_key)`. -/
def Ring.write (r : Ring) (frame : Frame) (is_key : Bool) : Ring :=
  { r with cache := r.cache ++ [(frame, is_key)] }

/-- The writes from the most recent flagged one onwards; empty when no write
is flagged. -/
def sinceRestart : List (Frame × Bool) → List (Frame × Bool)
  | [] => []
  | w :: ws => if ws.any Prod.snd then sinceRestart ws else if w.2 then w :: ws else []

/-- Modelled from the spec: what a reader that attaches now is given first,
"positioned so that the next frames delivered to it begin at or include the
most recent restart point": the frames from the most recent restart point
onwards, and nothing when no restart point exists yet. -/
def Ring.attachFrames (r : Ring) : List Frame :=
  (sinceRestart r.cache).map Prod.fst

/-! ## The push-session table -/

/-- A ring reader handle held by a push session. -/
abbrev RingReaderPtr := Nat

/-- The table `_rtp_sender`, an `unordered_map` from the session identifier to
its ring reader: a list of entries whose keys are pairwise distinct. -/
structure PushTable where
  entries : List (String × RingReaderPtr)
  nodup : (entries.map Prod.fst).Nodup

/-- The call `map.size()`. -/
def PushTable.size (t : PushTable) : Nat := t.entries.length

/-- The table after `map.clear()`. -/
def PushTable.clear (_t : PushTable) : PushTable :=
  ⟨[], List.nodup_nil⟩

/-- The lookup `map.find(key)`. -/
def PushTable.find (t : PushTable) (key : String) : Option RingReaderPtr :=
  (t.entries.find? (fun e => e.1 == key)).map Prod.snd

/-- Whether `key` has an entry. -/
def PushTable.contains (t : PushTable) (key : String) : Bool :=
  t.entries.any (fun e => e.1 == key)

/-- The call `map.erase(key)`: the number of entries removed and the table
afterwards. -/
def PushTable.erase (t : PushTable) (key : String) : Nat × PushTable :=
  ((t.entries.filter (fun e => e.1 == key)).length,
   ⟨t.entries.filter (fun e => !(e.1 == key)),
    (List.filter_sublist t.entries).map Prod.fst |>.nodup t.nodup⟩)

/-- Conversion of a `size_t` to `bool` at a `return`. -/
def sizeToBool (n : Nat) : Bool := decide (n ≠ 0)

/-! ## The muxer -/

/-- The members of `MultiMediaSourceMuxer` this file reads or writes, with the
two members of its base `MediaSink` it consults: the known tracks and
`haveVideo()`. `_last_check` is the clock reading at the last `resetTime()`
of the ticker. -/
structure MultiMediaSourceMuxer where
  _option : ProtocolOption
  _rtmp : Option Sink
  _rtsp : Option Sink
  _ts : Option Sink
  _fmp4 : Option Sink
  _hls : Option Sink
  _mp4 : Option Sink
  _ring : Option Ring
  _rtp_sender : PushTable
  _video_key_pos : Bool
  _is_enable : Bool
  _last_check : Nat
  _stamp : TrackType → Stamp
  _track_map : List Track
  _have_video : Bool

/-- The conversion of `bool` to `int` in an arithmetic expression. -/
def boolToInt (b : Bool) : Int := if b then 1 else 0

/-- The member `MultiMediaSourceMuxer::totalReaderCount() const`. -/
def totalReaderCount (s : MultiMediaSourceMuxer) : Int :=
  let hls := s._hls
  (match s._rtsp with | some k => k.readerCount | none => 0) +
  (match s._rtmp with | some k => k.readerCount | none => 0) +
  (match s._ts with | some k => k.readerCount | none => 0) +
  (match s._fmp4 with | some k => k.readerCount | none => 0) +
  (match s._mp4 with | some _ => boolToInt s._option.mp4_as_player | none => 0) +
  (match hls with | some k => k.readerCount | none => 0) +
  (match s._ring with | some r => r.readerCount | none => 0)

/-- The member `MultiMediaSourceMuxer::stopSendRtp(sender, ssrc)`. The flag is the build
option `ENABLE_RTPPROXY`; the member `_rtp_sender` exists only when it is set. -/
def stopSendRtp (ENABLE_RTPPROXY : Bool) (s : MultiMediaSourceMuxer) (ssrc : String) :
    Bool × MultiMediaSourceMuxer :=
  if ENABLE_RTPPROXY then
    if ssrc.isEmpty then
      let size := s._rtp_sender.size
      (sizeToBool size, { s with _rtp_sender := s._rtp_sender.clear })
    else
      let r := s._rtp_sender.erase ssrc
      (sizeToBool r.1, { s with _rtp_sender := r.2 })
  else
    (false, s)

/-! ## Collaborators reached through calls -/

/-- What this file cannot determine about its collaborators.

* `revise stamp dts pts modify` is `Stamp::revise`: the rewriter afterwards
  and the rewritten `dts` and `pts`;
* `recorder type vhost app stream option` is the behaviour of a recorder
  freshly built by `Recorder::createRecorder` (what it will report and
  accept). -/
structure Env where
  revise : Stamp → Nat → Nat → Bool → Stamp × Nat × Nat
  recorder : Recorder.type → String → String → String → ProtocolOption → Sink

/-- The `MediaSource &sender` argument: its identity accessors. -/
structure MediaSource where
  vhost : String
  app : String
  id : String
  deriving DecidableEq, Repr

/-- Calls that leave the muxer, in the order they are made. -/
inductive Event where
  | createRecorder (type : Recorder.type) (option : ProtocolOption)
  | onReaderChanged (size : Int)
  deriving DecidableEq, Repr

/-- Whether an event is a reader-count-changed notification. -/
def Event.isReaderChanged : Event → Bool
  | Event.onReaderChanged _ => true
  | Event.createRecorder _ _ => false

/-- Whether an event is the construction of a recorder. -/
def Event.isCreateRecorder : Event → Bool
  | Event.createRecorder _ _ => true
  | Event.onReaderChanged _ => false

/-- Modelled from the spec: `Recorder::createRecorder`, defined in the
recorder module and only called here. The spec says that starting a recorder
that does not exist "constructs it": for the two recognized kinds the call
yields a fresh object of the matching class, built from the option snapshot,
with nothing handed in yet. No object exists for an unrecognized kind. -/
def Recorder.createRecorder (env : Env) (type : Recorder.type) (vhost app stream_id : String)
    (option : ProtocolOption) : Option Sink :=
  match type with
  | Recorder.type.type_hls =>
    some { env.recorder type vhost app stream_id option with
            cls := SinkClass.HlsRecorder, frames := [], tracks := [], listener := false,
            option := option }
  | Recorder.type.type_mp4 =>
    some { env.recorder type vhost app stream_id option with
            cls := SinkClass.MP4Recorder, frames := [], tracks := [], listener := false,
            option := option }
  | Recorder.type.type_other => none

/-- The static function `makeRecorder(sender, tracks, type, option)`. -/
def makeRecorder (env : Env) (sender : MediaSource) (tracks : List Track) (type : Recorder.type)
    (option : ProtocolOption) : Option Sink :=
  let recorder := Recorder.createRecorder env type sender.vhost sender.app sender.id option
  recorder.map (fun r => tracks.foldl Sink.addTrack r)

/-- Modelled from the spec: `MediaSink::getTracks()` of the base class, which
yields "the full currently-known track set". -/
def getTracks (s : MultiMediaSourceMuxer) : List Track := s._track_map

/-- The base-class query `MediaSink::haveVideo()`. -/
def haveVideo (s : MultiMediaSourceMuxer) : Bool := s._have_video

/-! ## Recorder control -/

/-- The body of the `onceToken` destructor of `setupRecord`, run on the state
the function leaves behind. -/
def setupRecordToken (s : MultiMediaSourceMuxer) (type : Recorder.type) : List Event :=
  if s._option.mp4_as_player && decide (type = Recorder.type.type_mp4) then
    [Event.onReaderChanged (totalReaderCount s)]
  else
    []

/-- The member `MultiMediaSourceMuxer::setupRecord(sender, type, start, custom_path,
max_second)`: the returned value, the state afterwards, and the calls made to
the outside, the destructor of the `onceToken` running last. -/
def setupRecord (env : Env) (s : MultiMediaSourceMuxer) (sender : MediaSource)
    (type : Recorder.type) (start : Bool) (custom_path : String) (max_second : Nat) :
    Bool × MultiMediaSourceMuxer × List Event :=
  match type with
  | Recorder.type.type_hls =>
    if start && s._hls.isNone then
      let s1 := { s with _option := { s._option with hls_save_path := custom_path } }
      let hls := dynamic_pointer_cast_HlsRecorder (makeRecorder env sender (getTracks s1) type s1._option)
      let hls := hls.map Sink.setListener
      let s2 := { s1 with _hls := hls }
      (true, s2, Event.createRecorder type s1._option :: setupRecordToken s2 type)
    else if !start && s._hls.isSome then
      let s1 := { s with _hls := none }
      (true, s1, setupRecordToken s1 type)
    else
      (true, s, setupRecordToken s type)
  | Recorder.type.type_mp4 =>
    if start && s._mp4.isNone then
      let s1 := { s with _option := { s._option with mp4_save_path := custom_path } }
      let s2 := { s1 with _option := { s1._option with mp4_max_second := max_second } }
      let s3 := { s2 with _mp4 := makeRecorder env sender (getTracks s2) type s2._option }
      (true, s3, Event.createRecorder type s2._option :: setupRecordToken s3 type)
    else if !start && s._mp4.isSome then
      let s1 := { s with _mp4 := none }
      (true, s1, setupRecordToken s1 type)
    else
      (true, s, setupRecordToken s type)
  | Recorder.type.type_other => (false, s, setupRecordToken s type)

/-- The member `MultiMediaSourceMuxer::isRecording(sender, type)`, a non-const member:
the returned value and the state afterwards. -/
def isRecording (s : MultiMediaSourceMuxer) (_sender : MediaSource) (type : Recorder.type) :
    Bool × MultiMediaSourceMuxer :=
  match type with
  | Recorder.type.type_hls => (s._hls.isSome, s)
  | Recorder.type.type_mp4 => (s._mp4.isSome, s)
  | Recorder.type.type_other => (false, s)

/-- One call of a sequence of `setupRecord` calls: start flag, path, limit. -/
abbrev RecordCall := Bool × String × Nat

/-- A sequence of `setupRecord(sender, type, ...)` calls made one after the
other: the final state and all calls made to the outside, in order. -/
def setupRecordSeq (env : Env) (sender : MediaSource) (type : Recorder.type) :
    MultiMediaSourceMuxer → List RecordCall → MultiMediaSourceMuxer × List Event
  | s, [] => (s, [])
  | s, c :: cs =>
    let r := setupRecord env s sender type c.1 c.2.1 c.2.2
    let rest := setupRecordSeq env sender type r.2.1 cs
    (rest.1, r.2.2 ++ rest.2)

/-! ## The frame path -/

/-- The wrapper `FrameStamp(frame, stamp, modify_stamp)`: a view of the frame
with `dts` and `pts` revised by the rewriter, and the rewriter afterwards. -/
def FrameStamp (env : Env) (frame : Frame) (stamp : Stamp) (modify_stamp : Bool) : Frame × Stamp :=
  let r := env.revise stamp frame.dts frame.pts modify_stamp
  ({ frame with dts := r.2.1, pts := r.2.2 }, r.1)

/-- The frame that `onTrackFrame` forwards: the input, or its re-stamped view
when `_option.modify_stamp` is set. -/
def forwardedFrame (env : Env) (s : MultiMediaSourceMuxer) (frame_in : Frame) : Frame :=
  if s._option.modify_stamp then
    (FrameStamp env frame_in (s._stamp frame_in.trackType) true).1
  else
    frame_in

/-- The block `if (p) { ret = p->inputFrame(frame) ? true : ret; }`. -/
def feedSink (p : Option Sink) (frame : Frame) (ret : Bool) : Bool × Option Sink :=
  match p with
  | some k => (if (k.inputFrame frame).1 then true else ret, some (k.inputFrame frame).2)
  | none => (ret, none)

/-- The block `if (_ring) { ... }` of `onTrackFrame`: the ring and
`_video_key_pos` afterwards. -/
def writeRing (s : MultiMediaSourceMuxer) (frame : Frame) : Option Ring × Bool :=
  match s._ring with
  | some r =>
    if frame.trackType = TrackType.TrackVideo then
      let video_key_pos := frame.keyFrame || frame.configFrame
      (some (r.write frame (video_key_pos && !s._video_key_pos)), video_key_pos)
    else
      (some (r.write frame (!haveVideo s)), s._video_key_pos)
  | none => (none, s._video_key_pos)

/-- The member `MultiMediaSourceMuxer::onTrackFrame(frame_in)`. -/
def onTrackFrame (env : Env) (s : MultiMediaSourceMuxer) (frame_in : Frame) :
    Bool × MultiMediaSourceMuxer :=
  let frame := forwardedFrame env s frame_in
  let stamp := if s._option.modify_stamp then
      Function.update s._stamp frame_in.trackType
        (FrameStamp env frame_in (s._stamp frame_in.trackType) true).2
    else s._stamp
  let ret := false
  let rtmp := feedSink s._rtmp frame ret
  let rtsp := feedSink s._rtsp frame rtmp.1
  let ts := feedSink s._ts frame rtsp.1
  let hls := feedSink s._hls frame ts.1
  let mp4 := feedSink s._mp4 frame hls.1
  let fmp4 := feedSink s._fmp4 frame mp4.1
  let ring := writeRing s frame
  (fmp4.1,
   { s with _stamp := stamp, _rtmp := rtmp.2, _rtsp := rtsp.2, _ts := ts.2, _hls := hls.2,
            _mp4 := mp4.2, _fmp4 := fmp4.2, _ring := ring.1, _video_key_pos := ring.2 })

/-- A run of `onTrackFrame` calls, one per frame, in order. -/
def feedFrames (env : Env) (s : MultiMediaSourceMuxer) (frames : List Frame) :
    MultiMediaSourceMuxer :=
  frames.foldl (fun st f => (onTrackFrame env st f).2) s

/-! ## The idle debounce -/

/-- The reading `_last_check.elapsedTime()` at clock time `now`, for a ticker
last reset at `begin`; the clock is monotonic. -/
def elapsedTime (now begin : Nat) : Nat := now - begin

/-- The disjunction `isEnabled` evaluates when it re-checks. -/
def anyConsumer (s : MultiMediaSourceMuxer) : Bool :=
  let hls := s._hls
  (match s._rtmp with | some k => k.isEnabled | none => false) ||
  (match s._rtsp with | some k => k.isEnabled | none => false) ||
  (match s._ts with | some k => k.isEnabled | none => false) ||
  (match s._fmp4 with | some k => k.isEnabled | none => false) ||
  (match s._ring with | some r => decide (r.readerCount ≠ 0) | none => false) ||
  (match hls with | some k => k.isEnabled | none => false) || s._mp4.isSome

/-- The member `MultiMediaSourceMuxer::isEnabled()`, called at clock time `now` with the
configured `stream_none_reader_delay_ms`. -/
def isEnabled (stream_none_reader_delay_ms : Nat) (now : Nat) (s : MultiMediaSourceMuxer) :
    Bool × MultiMediaSourceMuxer :=
  if !s._is_enable || decide (elapsedTime now s._last_check > stream_none_reader_delay_ms) then
    let s1 := { s with _is_enable := anyConsumer s }
    let s2 := if s1._is_enable then { s1 with _last_check := now } else s1
    (s2._is_enable, s2)
  else
    (s._is_enable, s)

/-! ## Reference formulas and sample states -/

/-- The reader count a sink pointer contributes: what the sink reports when
present, nothing when absent. -/
def reportedReaders (p : Option Sink) : Int :=
  match p with
  | some k => k.readerCount
  | none => 0

/-- The attached-reader count of the GOP cache, 0 when the ring is absent. -/
def ringReaders (p : Option Ring) : Int :=
  match p with
  | some r => r.readerCount
  | none => 0

/-- The reader total in the words of the specification: the counts reported
by the present sinks, plus the attached readers of the GOP cache, plus one if
the container recorder is configured to count as a viewer. -/
def statedReaderSum (s : MultiMediaSourceMuxer) : Int :=
  reportedReaders s._rtsp + reportedReaders s._rtmp + reportedReaders s._ts +
  reportedReaders s._fmp4 + reportedReaders s._hls + ringReaders s._ring +
  (if s._option.mp4_as_player then 1 else 0)

/-- The sinks that are present, in the order `onTrackFrame` visits them. -/
def presentSinks (s : MultiMediaSourceMuxer) : List Sink :=
  [s._rtmp, s._rtsp, s._ts, s._hls, s._mp4, s._fmp4].filterMap id

/-- A sink pointer after its sink, if present, was handed `frame` exactly
once: the same sink with `frame` appended to what it received; absent stays
absent. -/
def handedOnce (p : Option Sink) (frame : Frame) : Option Sink :=
  p.map (fun k => { k with frames := k.frames ++ [frame] })

/-- The writes recorded in the GOP cache, none when the ring is absent. -/
def ringCache (s : MultiMediaSourceMuxer) : List (Frame × Bool) :=
  match s._ring with
  | some r => r.cache
  | none => []

/-- The frames a run of `onTrackFrame` calls forwards, in order. -/
def forwardedFrames (env : Env) : MultiMediaSourceMuxer → List Frame → List Frame
  | _, [] => []
  | s, f :: fs => forwardedFrame env s f :: forwardedFrames env (onTrackFrame env s f).2 fs

/-- Whether anyone consumes the stream, in the words of the specification:
some present sink (rtmp, rtsp, ts, fmp4, hls) reports enabled, or the GOP
cache has an attached reader, or the container recorder is present. -/
def consumerPresent (s : MultiMediaSourceMuxer) : Bool :=
  (([s._rtmp, s._rtsp, s._ts, s._fmp4, s._hls].filterMap id).any (fun k => k.isEnabled)) ||
  decide (ringReaders s._ring ≠ 0) || s._mp4.isSome

/-- Whether the most recent video frame of a frame history is a key or config
frame; `init` when the history holds no video frame. -/
def lastVideoKey (init : Bool) (hist : List Frame) : Bool :=
  match (hist.filter (fun f => decide (f.trackType = TrackType.TrackVideo))).getLast? with
  | some f => f.keyFrame || f.configFrame
  | none => init

/-- Options with the container recorder counted as a viewer. -/
def sampleOption : ProtocolOption :=
  { modify_stamp := false, mp4_as_player := true, hls_save_path := "", mp4_save_path := "",
    mp4_max_second := 0 }

/-- A sink that accepts every frame. -/
def sampleSink (cls : SinkClass) (readers : Int) (enabled : Bool) : Sink :=
  { cls := cls, readers := readers, enabled := enabled, accept := fun _ _ => true, frames := [],
    tracks := [], listener := false, option := sampleOption }

/-- A muxer with no sink, no ring and no push session. -/
def bareMuxer : MultiMediaSourceMuxer :=
  { _option := sampleOption, _rtmp := none, _rtsp := none, _ts := none, _fmp4 := none,
    _hls := none, _mp4 := none, _ring := none, _rtp_sender := ⟨[], List.nodup_nil⟩,
    _video_key_pos := false, _is_enable := false, _last_check := 0, _stamp := fun _ => 0,
    _track_map := [], _have_video := false }

/-- A push-session table with the two sessions "a" and "b". -/
def twoSessions : PushTable :=
  ⟨[("a", 1), ("b", 2)], by decide⟩

/-- A muxer holding the two push sessions "a" and "b". -/
def pushingMuxer : MultiMediaSourceMuxer :=
  { bareMuxer with _rtp_sender := twoSessions }

/-- Collaborators for the sample runs: a rewriter that keeps the timestamps
and fresh recorders that accept every frame. -/
def sampleEnv : Env :=
  { revise := fun stamp dts pts _ => (stamp, dts, pts),
    recorder := fun _ _ _ _ _ => sampleSink SinkClass.MP4Recorder 0 true }

/-- The sender of the sample runs. -/
def sampleSender : MediaSource :=
  { vhost := "v", app := "live", id := "cam" }

/-- A muxer whose container recorder is running and counted as a viewer. -/
def recordingMuxer : MultiMediaSourceMuxer :=
  { bareMuxer with _mp4 := some (sampleSink SinkClass.MP4Recorder 0 true) }

/-- A muxer with an rtmp sink that has a viewer; `isEnabled` last said false. -/
def watchedMuxer : MultiMediaSourceMuxer :=
  { bareMuxer with _rtmp := some (sampleSink SinkClass.RtmpMediaSourceMuxer 1 true) }

/-- The viewer of the rtmp sink leaves. -/
def viewerLeaves (s : MultiMediaSourceMuxer) : MultiMediaSourceMuxer :=
  { s with _rtmp := some (sampleSink SinkClass.RtmpMediaSourceMuxer 0 false) }

/-- A muxer with a video track and an empty GOP cache. -/
def videoMuxer : MultiMediaSourceMuxer :=
  { bareMuxer with _ring := some { readers := 0, cache := [] }, _have_video := true }

/-- An audio-only muxer with an empty GOP cache. -/
def audioMuxer : MultiMediaSourceMuxer :=
  { bareMuxer with _ring := some { readers := 0, cache := [] }, _have_video := false }

/-- A video config frame (parameter sets). -/
def configFrame0 : Frame :=
  { trackType := TrackType.TrackVideo, keyFrame := false, configFrame := true, dts := 0, pts := 0,
    data := 100 }

/-- A video key frame. -/
def keyFrame1 : Frame :=
  { trackType := TrackType.TrackVideo, keyFrame := true, configFrame := false, dts := 0, pts := 0,
    data := 101 }

/-- A video frame that is neither key nor config. -/
def deltaFrame (n : Nat) : Frame :=
  { trackType := TrackType.TrackVideo, keyFrame := false, configFrame := false, dts := n, pts := n,
    data := 200 + n }

/-- An audio frame. -/
def audioFrame (n : Nat) : Frame :=
  { trackType := TrackType.TrackAudio, keyFrame := true, configFrame := false, dts := n, pts := n,
    data := 300 + n }

/-! ## Theorems -/

/-- C1 (counterexample): with no sink at all and `mp4_as_player` set, the
container recorder is absent and `totalReaderCount()` is 0, while the stated
sum adds 1 for the configured viewer. -/
theorem C1_counterexample :
    bareMuxer._mp4.isNone = true ∧ bareMuxer._option.mp4_as_player = true ∧
    totalReaderCount bareMuxer = 0 ∧ statedReaderSum bareMuxer = 1 := by
  decide

/-- C1 (amended): for every combination of present and absent sinks and every
value of `mp4_as_player`, `totalReaderCount()` is the sum of the reader counts
reported by the present rtsp, rtmp, ts, fmp4 and hls sinks, plus the attached
readers of the GOP cache (0 when absent), plus 1 exactly when the container
recorder is present and configured to count as a viewer. -/
theorem C1_totalReaderCount_sum (s : MultiMediaSourceMuxer) :
    totalReaderCount s =
      reportedReaders s._rtsp + reportedReaders s._rtmp + reportedReaders s._ts +
      reportedReaders s._fmp4 + reportedReaders s._hls + ringReaders s._ring +
      (if s._mp4.isSome && s._option.mp4_as_player then 1 else 0) := by
  unfold totalReaderCount reportedReaders ringReaders boolToInt
  cases s._mp4 <;> cases s._option.mp4_as_player <;> simp
  omega

/-- C2 (counterexample): stopping all of two push sessions returns `true`,
which as a number is 1 and not the prior count 2. -/
theorem C2_counterexample :
    pushingMuxer._rtp_sender.size = 2 ∧
    (stopSendRtp true pushingMuxer "").1 = true ∧
    (stopSendRtp true pushingMuxer "").1.toNat ≠ pushingMuxer._rtp_sender.size := by
  decide

/-- C2 (amended): for every push-session table with n entries, `stopSendRtp`
with the empty identifier leaves the table empty, changes nothing else, and
returns the boolean "n is not 0": whether any session was removed, not how
many. -/
theorem C2_stopSendRtp_all (s : MultiMediaSourceMuxer) :
    (stopSendRtp true s "").2._rtp_sender.entries = [] ∧
    (stopSendRtp true s "").2._rtp_sender.size = 0 ∧
    (stopSendRtp true s "").2 = { s with _rtp_sender := ⟨[], List.nodup_nil⟩ } ∧
    (stopSendRtp true s "").1 = decide (0 < s._rtp_sender.size) := by
  have h : ("" : String).isEmpty = true := by decide
  simp [stopSendRtp, h, PushTable.clear, PushTable.size, sizeToBool, Nat.pos_iff_ne_zero]

/-- In a list with pairwise distinct keys at most one entry has a given key. -/
theorem length_filter_key (l : List (String × RingReaderPtr)) (hn : (l.map Prod.fst).Nodup)
    (key : String) :
    (l.filter (fun e => e.1 == key)).length = if l.any (fun e => e.1 == key) then 1 else 0 := by
  induction l with
  | nil => simp
  | cons e l ih =>
    rw [List.map_cons, List.nodup_cons] at hn
    by_cases he : e.1 = key
    · have hnone : l.filter (fun x => x.1 == key) = [] := by
        rw [List.filter_eq_nil_iff]
        intro x hx hk
        apply hn.1
        have hxk : x.1 = key := by simpa using hk
        rw [he, ← hxk]
        exact List.mem_map_of_mem Prod.fst hx
      simp [List.filter_cons, he, hnone]
    · have ih1 := ih hn.2
      have hb : (e.1 == key) = false := by simpa using he
      rw [List.filter_cons, List.any_cons, hb, Bool.false_or]
      simpa using ih1

/-- The entries kept and the entries removed by a filter add up. -/
theorem length_filter_split (l : List (String × RingReaderPtr)) (key : String) :
    (l.filter (fun e => !(e.1 == key))).length + (l.filter (fun e => e.1 == key)).length =
      l.length := by
  induction l with
  | nil => simp
  | cons e l ih =>
    by_cases he : e.1 = key
    · simp [List.filter_cons, he] at ih ⊢
      omega
    · simp [List.filter_cons, he] at ih ⊢
      omega

/-- C10: for every push-session table and every non-empty identifier,
`stopSendRtp` removes exactly the entry keyed by the identifier (the entries
with another key stay, in place and unchanged; the table shrinks by one when
the key was present), touches nothing else in the muxer, and returns true
exactly when the entry existed; for an identifier not in the table it returns
false and leaves the state unchanged. -/
theorem C10_stopSendRtp_one (s : MultiMediaSourceMuxer) (ssrc : String) (h : ssrc ≠ "") :
    (stopSendRtp true s ssrc).2._rtp_sender.entries =
        s._rtp_sender.entries.filter (fun e => decide (e.1 ≠ ssrc)) ∧
    (∀ key, key ≠ ssrc →
        (stopSendRtp true s ssrc).2._rtp_sender.find key = s._rtp_sender.find key) ∧
    (stopSendRtp true s ssrc).2._rtp_sender.find ssrc = none ∧
    (stopSendRtp true s ssrc).2._rtp_sender.size + (if s._rtp_sender.contains ssrc then 1 else 0)
        = s._rtp_sender.size ∧
    (stopSendRtp true s ssrc).2 =
        { s with _rtp_sender := (stopSendRtp true s ssrc).2._rtp_sender } ∧
    (stopSendRtp true s ssrc).1 = s._rtp_sender.contains ssrc ∧
    (s._rtp_sender.contains ssrc = false → stopSendRtp true s ssrc = (false, s)) := by
  have he : ssrc.isEmpty = false := by
    rw [Bool.eq_false_iff]
    intro hc
    exact h ((String.isEmpty_iff ssrc).1 hc)
  have hst : stopSendRtp true s ssrc =
      (sizeToBool (s._rtp_sender.erase ssrc).1, { s with _rtp_sender := (s._rtp_sender.erase ssrc).2 }) := by
    simp [stopSendRtp, he]
  have hcnt := length_filter_key s._rtp_sender.entries s._rtp_sender.nodup ssrc
  have hsplit := length_filter_split s._rtp_sender.entries ssrc
  rw [hst]
  refine ⟨?_, ?_, ?_, ?_, ?_, ?_, ?_⟩
  · simp only [PushTable.erase]
    congr 1
    funext e
    by_cases h1 : e.1 = ssrc <;> simp [h1]
  · intro key hk
    simp only [PushTable.erase, PushTable.find]
    congr 1
    induction s._rtp_sender.entries with
    | nil => rfl
    | cons e l ih =>
      by_cases h1 : e.1 = ssrc
      · have b1 : (e.1 == ssrc) = true := by simpa using h1
        have b2 : (e.1 == key) = false := by
          rw [beq_eq_false_iff_ne]
          intro hc
          exact hk (hc.symm.trans h1)
        rw [List.filter_cons, List.find?_cons]
        simp only [b1, b2, Bool.not_true]
        exact ih
      · have b1 : (e.1 == ssrc) = false := by simpa using h1
        rw [List.filter_cons]
        simp only [b1, Bool.not_false, if_true, List.find?_cons]
        cases e.1 == key
        · exact ih
        · rfl
  · simp [PushTable.erase, PushTable.find, List.find?_eq_none]
  · simp only [PushTable.erase, PushTable.size, PushTable.contains]
    rw [← hcnt]
    exact hsplit
  · rfl
  · simp only [PushTable.erase, PushTable.contains, sizeToBool, hcnt]
    cases s._rtp_sender.entries.any (fun e => e.1 == ssrc) <;> simp
  · intro hc
    simp only [PushTable.contains] at hc
    have hall : s._rtp_sender.entries.filter (fun e => !(e.1 == ssrc)) = s._rtp_sender.entries := by
      rw [List.filter_eq_self]
      intro x hx
      have := (List.any_eq_false.1 hc) x hx
      simpa using this
    have hret : sizeToBool (s._rtp_sender.erase ssrc).1 = false := by
      simp only [PushTable.erase, sizeToBool, hcnt, hc]
      simp
    rw [hret]
    congr 1
    cases s with
    | mk o a b c d e f g t v i l st tm hv =>
      cases t with
      | mk entries nodup =>
        simp only [PushTable.erase] at hall ⊢
        simp only [MultiMediaSourceMuxer.mk.injEq, PushTable.mk.injEq, true_and, and_true]
        exact hall

/-- C10 (witness): stopping the session "a" of the table holding "a" and "b". -/
theorem C10_stopSendRtp_one_witness :
    (stopSendRtp true pushingMuxer "a").2._rtp_sender.entries = [("b", 2)] ∧
    (stopSendRtp true pushingMuxer "a").1 = true :=
  have h := C10_stopSendRtp_one pushingMuxer "a" (by decide)
  ⟨h.1.trans (by decide), h.2.2.2.2.2.1.trans (by decide)⟩

/-- The call `setupRecord` never changes `mp4_as_player`. -/
theorem setupRecord_mp4_as_player (env : Env) (s : MultiMediaSourceMuxer) (sender : MediaSource)
    (type : Recorder.type) (start : Bool) (path : String) (max_second : Nat) :
    (setupRecord env s sender type start path max_second).2.1._option.mp4_as_player =
      s._option.mp4_as_player := by
  unfold setupRecord
  cases type <;> simp only [] <;> split_ifs <;> rfl

/-- With `mp4_as_player` set, a `setupRecord(type_mp4, ...)` call notifies
exactly once, with the reader total of the state it leaves behind. -/
theorem setupRecord_mp4_notifies (env : Env) (s : MultiMediaSourceMuxer) (sender : MediaSource)
    (start : Bool) (path : String) (max_second : Nat) (h : s._option.mp4_as_player = true) :
    (setupRecord env s sender Recorder.type.type_mp4 start path max_second).2.2.filter
        Event.isReaderChanged =
      [Event.onReaderChanged
        (totalReaderCount (setupRecord env s sender Recorder.type.type_mp4 start path max_second).2.1)] := by
  unfold setupRecord
  simp only []
  split_ifs <;> simp [setupRecordToken, h, Event.isReaderChanged]

/-- C3 (counterexample): with the container recorder already running and
counted as a viewer, another start causes no transition (the recorder is
present before and after, and none is constructed) and still triggers one
reader-count-changed notification; so does a stop when none is running. -/
theorem C3_counterexample :
    (recordingMuxer._option.mp4_as_player = true ∧
     recordingMuxer._mp4.isSome = true ∧
     (setupRecord sampleEnv recordingMuxer sampleSender Recorder.type.type_mp4 true "p" 0).2.1._mp4.isSome
        = true ∧
     (setupRecord sampleEnv recordingMuxer sampleSender Recorder.type.type_mp4 true "p" 0).2.2
        = [Event.onReaderChanged 1]) ∧
    (bareMuxer._mp4.isSome = false ∧
     (setupRecord sampleEnv bareMuxer sampleSender Recorder.type.type_mp4 false "p" 0).2.1._mp4.isSome
        = false ∧
     (setupRecord sampleEnv bareMuxer sampleSender Recorder.type.type_mp4 false "p" 0).2.2
        = [Event.onReaderChanged 0]) := by
  decide

/-- C3 (amended): with `mp4_as_player` set, every `setupRecord(type_mp4, ...)`
call triggers the reader-count-changed notification exactly once, carrying the
reader total after the call, whether or not the call starts or stops the
recorder; over a sequence of calls there are as many notifications as calls,
hence exactly one for each call that makes a transition. -/
theorem C3_notify_once_per_call (env : Env) (sender : MediaSource) (s : MultiMediaSourceMuxer)
    (calls : List RecordCall) (h : s._option.mp4_as_player = true) :
    (∀ (start : Bool) (path : String) (max_second : Nat),
      (setupRecord env s sender Recorder.type.type_mp4 start path max_second).2.2.filter
          Event.isReaderChanged =
        [Event.onReaderChanged
          (totalReaderCount
            (setupRecord env s sender Recorder.type.type_mp4 start path max_second).2.1)]) ∧
    ((setupRecordSeq env sender Recorder.type.type_mp4 s calls).2.filter
        Event.isReaderChanged).length = calls.length := by
  refine ⟨fun start path max_second => setupRecord_mp4_notifies env s sender start path max_second h, ?_⟩
  induction calls generalizing s with
  | nil => rfl
  | cons c cs ih =>
    have h1 := setupRecord_mp4_notifies env s sender c.1 c.2.1 c.2.2 h
    have h2 := ih (setupRecord env s sender Recorder.type.type_mp4 c.1 c.2.1 c.2.2).2.1
      ((setupRecord_mp4_as_player env s sender _ c.1 c.2.1 c.2.2).trans h)
    simp only [setupRecordSeq, List.filter_append, List.length_append, h1, h2, List.length_cons,
      List.length_nil]
    omega

/-- C3 (witness): start, start again, stop, stop again on the bare muxer: four
calls, two transitions, four notifications. -/
theorem C3_notify_once_per_call_witness :
    ((setupRecordSeq sampleEnv sampleSender Recorder.type.type_mp4 bareMuxer
        [(true, "p", 0), (true, "q", 1), (false, "", 0), (false, "", 0)]).2.filter
        Event.isReaderChanged).length = 4 :=
  (C3_notify_once_per_call sampleEnv sampleSender bareMuxer
    [(true, "p", 0), (true, "q", 1), (false, "", 0), (false, "", 0)] (by decide)).2

/-- Handing tracks to a sink does not change its class. -/
theorem foldl_addTrack_cls (tracks : List Track) (k : Sink) :
    (tracks.foldl Sink.addTrack k).cls = k.cls := by
  induction tracks generalizing k with
  | nil => rfl
  | cons t ts ih => rw [List.foldl_cons, ih]; rfl

/-- The destructor of the token constructs no recorder. -/
theorem setupRecordToken_creates_nothing (s : MultiMediaSourceMuxer) (type : Recorder.type) :
    (setupRecordToken s type).filter Event.isCreateRecorder = [] := by
  unfold setupRecordToken
  split_ifs <;> simp [Event.isCreateRecorder]

/-- After a start of the segment recorder it is present. -/
theorem started_hls_isRecording (env : Env) (s : MultiMediaSourceMuxer) (sender : MediaSource)
    (path : String) (max_second : Nat) :
    (isRecording (setupRecord env s sender Recorder.type.type_hls true path max_second).2.1
        sender Recorder.type.type_hls).1 = true := by
  cases h : s._hls <;>
    simp [setupRecord, isRecording, h, makeRecorder, Recorder.createRecorder,
      dynamic_pointer_cast_HlsRecorder, foldl_addTrack_cls]

/-- After a start of the container recorder it is present. -/
theorem started_mp4_isRecording (env : Env) (s : MultiMediaSourceMuxer) (sender : MediaSource)
    (path : String) (max_second : Nat) :
    (isRecording (setupRecord env s sender Recorder.type.type_mp4 true path max_second).2.1
        sender Recorder.type.type_mp4).1 = true := by
  cases h : s._mp4 <;>
    simp [setupRecord, isRecording, h, makeRecorder, Recorder.createRecorder]

/-- C4: for every muxer state and each recognized recorder kind (hls, mp4),
`isRecording` right after `setupRecord(kind, true, path, max)` returns true,
`isRecording` right after `setupRecord(kind, false, _, _)` returns false, and
`isRecording` leaves the state as it was. -/
theorem C4_setupRecord_isRecording (env : Env) (s : MultiMediaSourceMuxer) (sender : MediaSource)
    (path : String) (max_second : Nat) :
    (isRecording (setupRecord env s sender Recorder.type.type_hls true path max_second).2.1
        sender Recorder.type.type_hls).1 = true ∧
    (isRecording (setupRecord env s sender Recorder.type.type_mp4 true path max_second).2.1
        sender Recorder.type.type_mp4).1 = true ∧
    (isRecording (setupRecord env s sender Recorder.type.type_hls false path max_second).2.1
        sender Recorder.type.type_hls).1 = false ∧
    (isRecording (setupRecord env s sender Recorder.type.type_mp4 false path max_second).2.1
        sender Recorder.type.type_mp4).1 = false ∧
    (∀ kind, (isRecording s sender kind).2 = s) := by
  refine ⟨started_hls_isRecording env s sender path max_second, started_mp4_isRecording env s sender path max_second,
    ?_, ?_, ?_⟩
  · cases h : s._hls <;> simp [setupRecord, isRecording, h]
  · cases h : s._mp4 <;> simp [setupRecord, isRecording, h]
  · intro kind
    cases kind <;> rfl

/-- C5: when the recorder of a recognized kind is already present, a start
returns true, constructs no recorder and leaves the whole state (sink set and
stored options included) as it was, whatever path and limit are passed; and
for every state, a second start right after a first one returns true,
constructs nothing and leaves the state of the single start. -/
theorem C5_start_idempotent (env : Env) (s : MultiMediaSourceMuxer) (sender : MediaSource)
    (kind : Recorder.type) (path2 : String) (max2 : Nat)
    (h : (isRecording s sender kind).1 = true) :
    (setupRecord env s sender kind true path2 max2).1 = true ∧
    (setupRecord env s sender kind true path2 max2).2.1 = s ∧
    (setupRecord env s sender kind true path2 max2).2.2.filter Event.isCreateRecorder = [] ∧
    (∀ (s0 : MultiMediaSourceMuxer) (path1 : String) (max1 : Nat),
      kind ≠ Recorder.type.type_other →
      (setupRecord env (setupRecord env s0 sender kind true path1 max1).2.1 sender kind true
          path2 max2).1 = true ∧
      (setupRecord env (setupRecord env s0 sender kind true path1 max1).2.1 sender kind true
          path2 max2).2.1 = (setupRecord env s0 sender kind true path1 max1).2.1 ∧
      (setupRecord env (setupRecord env s0 sender kind true path1 max1).2.1 sender kind true
          path2 max2).2.2.filter Event.isCreateRecorder = []) := by
  have noop : ∀ (t : MultiMediaSourceMuxer), (isRecording t sender kind).1 = true →
      (setupRecord env t sender kind true path2 max2).1 = true ∧
      (setupRecord env t sender kind true path2 max2).2.1 = t ∧
      (setupRecord env t sender kind true path2 max2).2.2.filter Event.isCreateRecorder = [] := by
    intro t ht
    cases kind with
    | type_hls =>
      have hp : t._hls.isSome = true := ht
      have hn : t._hls.isNone = false := by cases hx : t._hls <;> simp_all
      have hs : setupRecord env t sender Recorder.type.type_hls true path2 max2 =
          (true, t, setupRecordToken t Recorder.type.type_hls) := by
        simp [setupRecord, hn]
      rw [hs]
      exact ⟨rfl, rfl, setupRecordToken_creates_nothing t _⟩
    | type_mp4 =>
      have hp : t._mp4.isSome = true := ht
      have hn : t._mp4.isNone = false := by cases hx : t._mp4 <;> simp_all
      have hs : setupRecord env t sender Recorder.type.type_mp4 true path2 max2 =
          (true, t, setupRecordToken t Recorder.type.type_mp4) := by
        simp [setupRecord, hn]
      rw [hs]
      exact ⟨rfl, rfl, setupRecordToken_creates_nothing t _⟩
    | type_other => exact absurd ht (by simp [isRecording])
  refine ⟨(noop s h).1, (noop s h).2.1, (noop s h).2.2, ?_⟩
  intro s0 path1 max1 hk
  apply noop
  cases kind with
  | type_hls => exact (started_hls_isRecording env s0 sender path1 max1)
  | type_mp4 => exact (started_mp4_isRecording env s0 sender path1 max1)
  | type_other => exact absurd rfl hk

/-- C5 (witness): a second start of the running container recorder, and two
starts in a row of the segment recorder on the bare muxer. -/
theorem C5_start_idempotent_witness :
    (isRecording recordingMuxer sampleSender Recorder.type.type_mp4).1 = true ∧
    (setupRecord sampleEnv recordingMuxer sampleSender Recorder.type.type_mp4 true "q" 9).1 = true ∧
    ((setupRecord sampleEnv recordingMuxer sampleSender Recorder.type.type_mp4 true "q" 9).2.2.filter
        Event.isCreateRecorder) = [] ∧
    (setupRecord sampleEnv
        (setupRecord sampleEnv bareMuxer sampleSender Recorder.type.type_mp4 true "p" 1).2.1
        sampleSender Recorder.type.type_mp4 true "q" 9).2.1 =
      (setupRecord sampleEnv bareMuxer sampleSender Recorder.type.type_mp4 true "p" 1).2.1 :=
  have h := C5_start_idempotent sampleEnv recordingMuxer sampleSender Recorder.type.type_mp4 "q" 9
    (by decide)
  ⟨by decide, h.1, h.2.2.1, (h.2.2.2 bareMuxer "p" 1 (by decide)).2.1⟩

/-- The block feeding one sink: the flag afterwards is the flag before or the
sink's answer. -/
theorem feedSink_fst (p : Option Sink) (frame : Frame) (ret : Bool) :
    (feedSink p frame ret).1 = (ret || (p.toList.any (fun k => (k.inputFrame frame).1))) := by
  cases p with
  | none => simp [feedSink]
  | some k => cases h : (k.inputFrame frame).1 <;> cases ret <;> simp [feedSink, h]

/-- The block feeding one sink hands the frame over exactly once. -/
theorem feedSink_snd (p : Option Sink) (frame : Frame) (ret : Bool) :
    (feedSink p frame ret).2 = handedOnce p frame := by
  cases p <;> rfl

/-- Re-stamping leaves kind, key flag, config flag and payload alone. -/
theorem forwardedFrame_content (env : Env) (s : MultiMediaSourceMuxer) (f : Frame) :
    (forwardedFrame env s f).trackType = f.trackType ∧
    (forwardedFrame env s f).keyFrame = f.keyFrame ∧
    (forwardedFrame env s f).configFrame = f.configFrame ∧
    (forwardedFrame env s f).content = f.content := by
  unfold forwardedFrame
  split_ifs <;> simp [FrameStamp, Frame.content]

/-- C8: for every state and frame, `onTrackFrame` hands the frame to every
present sink exactly once and skips the absent ones. The frame handed over is
the input itself, or, when timestamp override is on, the input with only its
`dts` and `pts` replaced by what the rewriter of its track returns (kind, key
flag, config flag and payload are those of the input). The call returns true
exactly when the `inputFrame` of at least one present sink returned true; the
result does not depend on the GOP cache; with no sink present it is false. -/
theorem C8_onTrackFrame_fanout (env : Env) (s : MultiMediaSourceMuxer) (frame_in : Frame) :
    ((onTrackFrame env s frame_in).2._rtmp = handedOnce s._rtmp (forwardedFrame env s frame_in) ∧
     (onTrackFrame env s frame_in).2._rtsp = handedOnce s._rtsp (forwardedFrame env s frame_in) ∧
     (onTrackFrame env s frame_in).2._ts = handedOnce s._ts (forwardedFrame env s frame_in) ∧
     (onTrackFrame env s frame_in).2._hls = handedOnce s._hls (forwardedFrame env s frame_in) ∧
     (onTrackFrame env s frame_in).2._mp4 = handedOnce s._mp4 (forwardedFrame env s frame_in) ∧
     (onTrackFrame env s frame_in).2._fmp4 = handedOnce s._fmp4 (forwardedFrame env s frame_in)) ∧
    (forwardedFrame env s frame_in =
      if s._option.modify_stamp then
        { frame_in with
          dts := (env.revise (s._stamp frame_in.trackType) frame_in.dts frame_in.pts true).2.1,
          pts := (env.revise (s._stamp frame_in.trackType) frame_in.dts frame_in.pts true).2.2 }
      else frame_in) ∧
    ((forwardedFrame env s frame_in).trackType = frame_in.trackType ∧
     (forwardedFrame env s frame_in).keyFrame = frame_in.keyFrame ∧
     (forwardedFrame env s frame_in).configFrame = frame_in.configFrame ∧
     (forwardedFrame env s frame_in).data = frame_in.data) ∧
    (s._option.modify_stamp = false → forwardedFrame env s frame_in = frame_in) ∧
    ((onTrackFrame env s frame_in).1 = true ↔
      ∃ k ∈ presentSinks s, (k.inputFrame (forwardedFrame env s frame_in)).1 = true) ∧
    (∀ (ring : Option Ring) (video_key_pos : Bool),
      (onTrackFrame env { s with _ring := ring, _video_key_pos := video_key_pos } frame_in).1 =
        (onTrackFrame env s frame_in).1) ∧
    (presentSinks s = [] → (onTrackFrame env s frame_in).1 = false) := by
  have hret : (onTrackFrame env s frame_in).1 =
      (presentSinks s).any (fun k => (k.inputFrame (forwardedFrame env s frame_in)).1) := by
    simp only [onTrackFrame, feedSink_fst, presentSinks]
    cases s._rtmp <;> cases s._rtsp <;> cases s._ts <;> cases s._hls <;> cases s._mp4 <;>
      cases s._fmp4 <;> simp [Bool.or_assoc]
  have hff := forwardedFrame_content env s frame_in
  refine ⟨⟨?_, ?_, ?_, ?_, ?_, ?_⟩, ?_, ⟨hff.1, hff.2.1, hff.2.2.1, ?_⟩, ?_, ?_, ?_, ?_⟩
  · simp only [onTrackFrame, feedSink_snd]
  · simp only [onTrackFrame, feedSink_snd]
  · simp only [onTrackFrame, feedSink_snd]
  · simp only [onTrackFrame, feedSink_snd]
  · simp only [onTrackFrame, feedSink_snd]
  · simp only [onTrackFrame, feedSink_snd]
  · unfold forwardedFrame FrameStamp
    split_ifs <;> rfl
  · unfold forwardedFrame FrameStamp
    split_ifs <;> rfl
  · intro hm
    simp [forwardedFrame, hm]
  · rw [hret, List.any_eq_true]
  · intro ring video_key_pos
    rfl
  · intro hnone
    rw [hret, hnone]
    rfl

/-- What `onTrackFrame` leaves in the ring, the key-position flag, the video
flag and the options. -/
theorem onTrackFrame_ring (env : Env) (s : MultiMediaSourceMuxer) (f : Frame) :
    (onTrackFrame env s f).2._ring = (writeRing s (forwardedFrame env s f)).1 ∧
    (onTrackFrame env s f).2._video_key_pos = (writeRing s (forwardedFrame env s f)).2 ∧
    (onTrackFrame env s f).2._have_video = s._have_video ∧
    (onTrackFrame env s f).2._option = s._option :=
  ⟨rfl, rfl, rfl, rfl⟩

/-- The frames forwarded by a run keep kind, flags and payload. -/
theorem forwardedFrames_content (env : Env) (s : MultiMediaSourceMuxer) (fs : List Frame) :
    (forwardedFrames env s fs).map Frame.content = fs.map Frame.content := by
  induction fs generalizing s with
  | nil => rfl
  | cons f fs ih =>
    simp only [forwardedFrames, List.map_cons, ih, (forwardedFrame_content env s f).2.2.2]

/-- Without timestamp override the frames are forwarded as they are. -/
theorem forwardedFrames_plain (env : Env) (s : MultiMediaSourceMuxer) (fs : List Frame)
    (h : s._option.modify_stamp = false) : forwardedFrames env s fs = fs := by
  induction fs generalizing s with
  | nil => rfl
  | cons f fs ih =>
    have h1 : (onTrackFrame env s f).2._option.modify_stamp = false := by
      rw [(onTrackFrame_ring env s f).2.2.2]; exact h
    simp only [forwardedFrames, ih _ h1]
    simp [forwardedFrame, h]

/-- A run of video frames that are neither key nor config is written to a
present ring without any restart flag. -/
theorem feedFrames_delta (env : Env) (rest : List Frame) (s : MultiMediaSourceMuxer)
    (hr : s._ring.isSome = true)
    (hrest : ∀ f ∈ rest, f.trackType = TrackType.TrackVideo ∧ f.keyFrame = false ∧
      f.configFrame = false) :
    (feedFrames env s rest)._ring.isSome = true ∧
    ringCache (feedFrames env s rest) =
      ringCache s ++ (forwardedFrames env s rest).map (fun f => (f, false)) := by
  induction rest generalizing s with
  | nil => simp [feedFrames, forwardedFrames, hr]
  | cons f fs ih =>
    obtain ⟨hv, hk, hc⟩ := hrest f (List.mem_cons_self f fs)
    obtain ⟨r, hsr⟩ := Option.isSome_iff_exists.1 hr
    have hff := forwardedFrame_content env s f
    have hring : (onTrackFrame env s f).2._ring =
        some (r.write (forwardedFrame env s f) false) := by
      rw [(onTrackFrame_ring env s f).1]
      simp [writeRing, hsr, hff.1, hff.2.1, hff.2.2.1, hv, hk, hc]
    have ih1 := ih (onTrackFrame env s f).2 (by rw [hring]; rfl)
      (fun g hg => hrest g (List.mem_cons_of_mem f hg))
    have hfeed : feedFrames env s (f :: fs) = feedFrames env (onTrackFrame env s f).2 fs := rfl
    rw [hfeed]
    refine ⟨ih1.1, ?_⟩
    rw [ih1.2]
    simp [ringCache, hring, hsr, Ring.write, forwardedFrames]

/-- In an audio-only stream a run of non-video frames is written to a present
ring with every write flagged as a restart point. -/
theorem feedFrames_audio (env : Env) (frames : List Frame) (s : MultiMediaSourceMuxer)
    (hr : s._ring.isSome = true) (hv : haveVideo s = false)
    (hfs : ∀ f ∈ frames, f.trackType ≠ TrackType.TrackVideo) :
    ringCache (feedFrames env s frames) =
      ringCache s ++ (forwardedFrames env s frames).map (fun f => (f, true)) := by
  induction frames generalizing s with
  | nil => simp [feedFrames, forwardedFrames]
  | cons f fs ih =>
    have hf := hfs f (List.mem_cons_self f fs)
    obtain ⟨r, hsr⟩ := Option.isSome_iff_exists.1 hr
    have hff := forwardedFrame_content env s f
    have hring : (onTrackFrame env s f).2._ring =
        some (r.write (forwardedFrame env s f) true) := by
      rw [(onTrackFrame_ring env s f).1]
      simp [writeRing, hsr, hff.1, hf, hv]
    have hv1 : haveVideo (onTrackFrame env s f).2 = false := hv
    have ih1 := ih (onTrackFrame env s f).2 (by rw [hring]; rfl) hv1
      (fun g hg => hfs g (List.mem_cons_of_mem f hg))
    have hfeed : feedFrames env s (f :: fs) = feedFrames env (onTrackFrame env s f).2 fs := rfl
    rw [hfeed, ih1]
    simp [ringCache, hring, hsr, Ring.write, forwardedFrames]

/-- After a flagged write followed by unflagged ones, the restart point is the
flagged write. -/
theorem sinceRestart_flagged (pre : List (Frame × Bool)) (f : Frame) (tl : List Frame) :
    sinceRestart (pre ++ (f, true) :: tl.map (fun g => (g, false))) =
      (f, true) :: tl.map (fun g => (g, false)) := by
  induction pre with
  | nil =>
    have hnone : (tl.map (fun g => (g, false))).any Prod.snd = false := by
      rw [List.any_eq_false]
      intro x hx
      obtain ⟨g, _, hg⟩ := List.mem_map.1 hx
      rw [← hg]
      simp
    simp [sinceRestart, hnone]
  | cons w pre ih =>
    have hany : (pre ++ (f, true) :: tl.map (fun g => (g, false))).any Prod.snd = true := by
      rw [List.any_eq_true]
      exact ⟨(f, true), by simp, rfl⟩
    have hstep : sinceRestart (w :: (pre ++ (f, true) :: tl.map (fun g => (g, false)))) =
        sinceRestart (pre ++ (f, true) :: tl.map (fun g => (g, false))) := by
      rw [sinceRestart, if_pos hany]
    rw [List.cons_append, hstep]
    exact ih

/-- C9: with the GOP cache present, a non-video frame passed to `onTrackFrame`
is written to the cache with the restart flag equal to the negation of
`haveVideo()`; hence in an audio-only stream (no video track, so no video
frame) every frame of a run is written flagged as a restart point, in order,
with kind, flags and payload as passed in. -/
theorem C9_audio_restart_flags (env : Env) (s : MultiMediaSourceMuxer) (r : Ring)
    (frame_in : Frame) (frames : List Frame) (hr : s._ring = some r)
    (hf : frame_in.trackType ≠ TrackType.TrackVideo) :
    (onTrackFrame env s frame_in).2._ring =
        some (r.write (forwardedFrame env s frame_in) (!haveVideo s)) ∧
    (haveVideo s = false → (∀ f ∈ frames, f.trackType ≠ TrackType.TrackVideo) →
      ringCache (feedFrames env s frames) =
          r.cache ++ (forwardedFrames env s frames).map (fun f => (f, true)) ∧
      (forwardedFrames env s frames).map Frame.content = frames.map Frame.content) := by
  have hff := forwardedFrame_content env s frame_in
  refine ⟨?_, ?_⟩
  · rw [(onTrackFrame_ring env s frame_in).1]
    simp [writeRing, hr, hff.1, hf]
  · intro hv hfs
    have h1 := feedFrames_audio env frames s (by rw [hr]; rfl) hv hfs
    refine ⟨?_, forwardedFrames_content env s frames⟩
    rw [h1]
    simp [ringCache, hr]

/-- C9 (witness): two audio frames fed to the audio-only muxer. -/
theorem C9_audio_restart_flags_witness :
    ringCache (feedFrames sampleEnv audioMuxer [audioFrame 1, audioFrame 2]) =
      [(audioFrame 1, true), (audioFrame 2, true)] :=
  ((C9_audio_restart_flags sampleEnv audioMuxer { readers := 0, cache := [] } (audioFrame 1)
      [audioFrame 1, audioFrame 2] rfl (by decide)).2 (by decide) (by decide)).1.trans (by decide)

/-- C7 (counterexample): the prior history ends with a config frame; the key
frame that follows, with one delta frame after it, is written without the
restart flag, the restart point stays at the config frame, and an attaching
reader is given three frames, not the key frame and the delta frame alone. -/
theorem C7_counterexample :
    ringCache (feedFrames sampleEnv videoMuxer [configFrame0]) = [(configFrame0, true)] ∧
    ringCache (feedFrames sampleEnv (feedFrames sampleEnv videoMuxer [configFrame0])
        [keyFrame1, deltaFrame 1]) =
      [(configFrame0, true), (keyFrame1, false), (deltaFrame 1, false)] ∧
    (feedFrames sampleEnv (feedFrames sampleEnv videoMuxer [configFrame0])
        [keyFrame1, deltaFrame 1])._ring.map Ring.attachFrames =
      some [configFrame0, keyFrame1, deltaFrame 1] := by
  decide

/-- A key or config video frame and then video frames that are neither, fed
to a state whose ring is present: what is written, with which flags, and what
an attaching reader is given. -/
theorem restart_point_from (env : Env) (s : MultiMediaSourceMuxer) (r : Ring) (k : Frame)
    (rest : List Frame) (hr : s._ring = some r) (hv : k.trackType = TrackType.TrackVideo)
    (hk : (k.keyFrame || k.configFrame) = true)
    (hrest : ∀ f ∈ rest, f.trackType = TrackType.TrackVideo ∧ f.keyFrame = false ∧
      f.configFrame = false) :
    ringCache (feedFrames env s (k :: rest)) =
        r.cache ++ (forwardedFrame env s k, !s._video_key_pos) ::
          (forwardedFrames env (onTrackFrame env s k).2 rest).map (fun f => (f, false)) ∧
    (forwardedFrames env s (k :: rest)).map Frame.content = (k :: rest).map Frame.content ∧
    (s._option.modify_stamp = false → forwardedFrames env s (k :: rest) = k :: rest) ∧
    (s._video_key_pos = false →
      (feedFrames env s (k :: rest))._ring.map Ring.attachFrames =
        some (forwardedFrames env s (k :: rest))) := by
  have hff := forwardedFrame_content env s k
  have hkey : ((forwardedFrame env s k).keyFrame || (forwardedFrame env s k).configFrame) = true := by
    rw [hff.2.1, hff.2.2.1]; exact hk
  have hring : (onTrackFrame env s k).2._ring =
      some (r.write (forwardedFrame env s k) (!s._video_key_pos)) := by
    rw [(onTrackFrame_ring env s k).1]
    simp [writeRing, hr, hff.1, hv, hkey]
  have hd := feedFrames_delta env rest (onTrackFrame env s k).2 (by rw [hring]; rfl) hrest
  have hfeed : feedFrames env s (k :: rest) = feedFrames env (onTrackFrame env s k).2 rest := rfl
  have hcache : ringCache (feedFrames env s (k :: rest)) =
      r.cache ++ (forwardedFrame env s k, !s._video_key_pos) ::
        (forwardedFrames env (onTrackFrame env s k).2 rest).map (fun f => (f, false)) := by
    rw [hfeed, hd.2]
    simp [ringCache, hring, Ring.write]
  refine ⟨hcache, forwardedFrames_content env s (k :: rest),
    fun hm => forwardedFrames_plain env s (k :: rest) hm, ?_⟩
  intro hpos
  obtain ⟨r2, hr2⟩ := Option.isSome_iff_exists.1 hd.1
  rw [← hfeed] at hr2
  have hc2 : r2.cache = ringCache (feedFrames env s (k :: rest)) := by
    simp [ringCache, hr2]
  rw [hr2, Option.map_some', Ring.attachFrames, hc2, hcache, hpos]
  simp only [Bool.not_false, sinceRestart_flagged, List.map_cons, List.map_map, forwardedFrames]
  congr 2
  exact List.map_id _

/-- A run of `onTrackFrame` calls split in two. -/
theorem feedFrames_append (env : Env) (s : MultiMediaSourceMuxer) (a b : List Frame) :
    feedFrames env s (a ++ b) = feedFrames env (feedFrames env s a) b := by
  simp [feedFrames, List.foldl_append]

/-- The history predicate after one more frame. -/
theorem lastVideoKey_concat (init : Bool) (hist : List Frame) (f : Frame) :
    lastVideoKey init (hist ++ [f]) =
      (if f.trackType = TrackType.TrackVideo then f.keyFrame || f.configFrame
       else lastVideoKey init hist) := by
  unfold lastVideoKey
  by_cases hv : f.trackType = TrackType.TrackVideo
  · simp [List.filter_append, hv]
  · simp [List.filter_append, hv]

/-- C7 (amended): with the GOP cache present, after every prior frame history
(frames of any kind), feeding a video frame that is key or config and then N
video frames that are neither writes these N+1 frames to the cache in order
(kind, flags and payload as passed in, exactly the inputs without timestamp
override). `onTrackFrame` keeps in `_video_key_pos` whether the most recent
video frame of the history was key or config, frames of other kinds leaving it
alone; the key/config frame is written with the restart flag exactly when that
is not the case, and none of the N following writes carries the flag. So when
the most recent video frame of the history was not key or config, the restart
point is at the key/config frame and an attaching reader is given exactly
these N+1 frames. -/
theorem C7_restart_point (env : Env) (s0 : MultiMediaSourceMuxer) (r0 : Ring)
    (hist : List Frame) (k : Frame) (rest : List Frame) (hr : s0._ring = some r0)
    (hv : k.trackType = TrackType.TrackVideo) (hk : (k.keyFrame || k.configFrame) = true)
    (hrest : ∀ f ∈ rest, f.trackType = TrackType.TrackVideo ∧ f.keyFrame = false ∧
      f.configFrame = false) :
    (∀ (s : MultiMediaSourceMuxer) (f : Frame), s._ring.isSome = true →
      (onTrackFrame env s f).2._video_key_pos =
        (if f.trackType = TrackType.TrackVideo then f.keyFrame || f.configFrame
         else s._video_key_pos)) ∧
    (feedFrames env s0 hist)._video_key_pos = lastVideoKey s0._video_key_pos hist ∧
    (feedFrames env s0 (hist ++ k :: rest))._video_key_pos =
      lastVideoKey s0._video_key_pos (hist ++ k :: rest) ∧
    ringCache (feedFrames env s0 (hist ++ k :: rest)) =
        ringCache (feedFrames env s0 hist) ++
          (forwardedFrame env (feedFrames env s0 hist) k, !lastVideoKey s0._video_key_pos hist) ::
          (forwardedFrames env (onTrackFrame env (feedFrames env s0 hist) k).2 rest).map
            (fun f => (f, false)) ∧
    (forwardedFrames env (feedFrames env s0 hist) (k :: rest)).map Frame.content =
        (k :: rest).map Frame.content ∧
    (s0._option.modify_stamp = false →
      forwardedFrames env (feedFrames env s0 hist) (k :: rest) = k :: rest) ∧
    (lastVideoKey s0._video_key_pos hist = false →
      (feedFrames env s0 (hist ++ k :: rest))._ring.map Ring.attachFrames =
        some (forwardedFrames env (feedFrames env s0 hist) (k :: rest))) := by
  have hsome : s0._ring.isSome = true := by rw [hr]; rfl
  have step : ∀ (s : MultiMediaSourceMuxer) (f : Frame), s._ring.isSome = true →
      (onTrackFrame env s f).2._ring.isSome = true ∧
      (onTrackFrame env s f).2._video_key_pos =
        (if f.trackType = TrackType.TrackVideo then f.keyFrame || f.configFrame
         else s._video_key_pos) := by
    intro s f hs
    obtain ⟨r, hsr⟩ := Option.isSome_iff_exists.1 hs
    have hff := forwardedFrame_content env s f
    by_cases hvf : f.trackType = TrackType.TrackVideo
    · simp [onTrackFrame, writeRing, hsr, hff.1, hff.2.1, hff.2.2.1, hvf]
    · simp [onTrackFrame, writeRing, hsr, hff.1, hvf]
  have track : ∀ (h : List Frame),
      (feedFrames env s0 h)._ring.isSome = true ∧
      (feedFrames env s0 h)._option = s0._option ∧
      (feedFrames env s0 h)._video_key_pos = lastVideoKey s0._video_key_pos h := by
    intro h
    induction h using List.reverseRecOn with
    | nil => exact ⟨hsome, rfl, rfl⟩
    | append_singleton h f ih =>
      have hstep : feedFrames env s0 (h ++ [f]) =
          (onTrackFrame env (feedFrames env s0 h) f).2 := by
        rw [feedFrames_append]; rfl
      have h1 := step (feedFrames env s0 h) f ih.1
      rw [hstep, lastVideoKey_concat]
      refine ⟨h1.1, ?_, ?_⟩
      · rw [(onTrackFrame_ring env _ f).2.2.2]; exact ih.2.1
      · rw [h1.2, ih.2.2]
  have hh := track hist
  have hall := track (hist ++ k :: rest)
  obtain ⟨r, hsr⟩ := Option.isSome_iff_exists.1 hh.1
  have hfrom := restart_point_from env (feedFrames env s0 hist) r k rest hsr hv hk hrest
  have hcache : ringCache (feedFrames env s0 hist) = r.cache := by simp [ringCache, hsr]
  have happ := feedFrames_append env s0 hist (k :: rest)
  refine ⟨fun s f hs => (step s f hs).2, hh.2.2, hall.2.2, ?_, hfrom.2.1, ?_, ?_⟩
  · rw [happ, hcache, ← hh.2.2]
    exact hfrom.1
  · intro hm
    exact hfrom.2.2.1 (by rw [hh.2.1]; exact hm)
  · intro hlast
    rw [happ]
    exact hfrom.2.2.2 (hh.2.2.trans hlast)

/-- C7 (witness): the history is a config frame, a delta frame and an audio
frame; then a key frame and one delta frame are fed to the video muxer. -/
theorem C7_restart_point_witness :
    (feedFrames sampleEnv videoMuxer
        ([configFrame0, deltaFrame 1, audioFrame 2] ++ [keyFrame1, deltaFrame 3]))._ring.map
        Ring.attachFrames = some [keyFrame1, deltaFrame 3] ∧
    (feedFrames sampleEnv videoMuxer [configFrame0, deltaFrame 1, audioFrame 2])._video_key_pos
        = false :=
  have h := C7_restart_point sampleEnv videoMuxer { readers := 0, cache := [] }
    [configFrame0, deltaFrame 1, audioFrame 2] keyFrame1 [deltaFrame 3] rfl rfl (by decide)
    (by decide)
  ⟨(h.2.2.2.2.2.2 (by decide)).trans (by decide), h.2.1.trans (by decide)⟩

/-- C6 (counterexample): cooldown 1000 ms. At time 0 a viewer is present and
`isEnabled()` turns true. The viewer has left by time 900, where the call
still says true without looking. At time 1001, only 101 ms after the viewer
left, the call re-checks and returns false. -/
theorem C6_counterexample :
    watchedMuxer._is_enable = false ∧
    (isEnabled 1000 0 watchedMuxer).1 = true ∧
    anyConsumer (viewerLeaves (isEnabled 1000 0 watchedMuxer).2) = false ∧
    (isEnabled 1000 900 (viewerLeaves (isEnabled 1000 0 watchedMuxer).2)).1 = true ∧
    (isEnabled 1000 1001
      (isEnabled 1000 900 (viewerLeaves (isEnabled 1000 0 watchedMuxer).2)).2).1 = false ∧
    1001 - 900 ≤ 1000 := by
  decide

/-- C6 (amended): a call of `isEnabled()` at time `now`.
From a state whose last result was false the call returns true exactly when
some present sink reports enabled, the GOP cache has a reader, or the
container recorder is present. Every call that re-checks (last result false,
or more than `stream_none_reader_delay_ms` since the timer was restarted)
returns that, stores it, and restarts the timer at `now` exactly when the
answer is true. A call whose last result was true and that comes within the
window returns true and leaves the state alone, whatever the sinks say.
Hence after a re-check at `now` that found a consumer, whatever happens to the
consumers afterwards: every call up to `now + delay` returns true without
consulting any sink, and the first call later than that re-checks and, if it
finds a consumer, restarts the window at its own time. The window runs from
the last re-check that found a consumer, not from the departure of the last
one. -/
theorem C6_isEnabled_debounce (delay now : Nat) (s : MultiMediaSourceMuxer) :
    (s._is_enable = false →
      ((isEnabled delay now s).1 = true ↔
        ((∃ k, (s._rtmp = some k ∨ s._rtsp = some k ∨ s._ts = some k ∨ s._fmp4 = some k ∨
            s._hls = some k) ∧ k.isEnabled = true) ∨
         (∃ r, s._ring = some r ∧ r.readerCount ≠ 0) ∨
         s._mp4.isSome = true))) ∧
    ((s._is_enable = false ∨ delay < now - s._last_check) →
      (isEnabled delay now s).1 = consumerPresent s ∧
      (isEnabled delay now s).2 =
        { s with _is_enable := consumerPresent s,
                 _last_check := if consumerPresent s = true then now else s._last_check }) ∧
    (s._is_enable = true → s._last_check ≤ now → now - s._last_check ≤ delay →
      isEnabled delay now s = (true, s)) ∧
    ((s._is_enable = false ∨ delay < now - s._last_check) → consumerPresent s = true →
      (isEnabled delay now s).1 = true ∧
      (isEnabled delay now s).2._is_enable = true ∧
      (isEnabled delay now s).2._last_check = now ∧
      (∀ (s2 : MultiMediaSourceMuxer) (later : Nat),
        s2._is_enable = (isEnabled delay now s).2._is_enable →
        s2._last_check = (isEnabled delay now s).2._last_check →
        now ≤ later →
        (later - now ≤ delay → isEnabled delay later s2 = (true, s2)) ∧
        (delay < later - now →
          (isEnabled delay later s2).1 = consumerPresent s2 ∧
          (isEnabled delay later s2).2._is_enable = consumerPresent s2 ∧
          (isEnabled delay later s2).2._last_check =
            (if consumerPresent s2 = true then later else now)))) := by
  have hany : ∀ (t : MultiMediaSourceMuxer), anyConsumer t = consumerPresent t := by
    intro t
    unfold anyConsumer consumerPresent ringReaders
    cases t._rtmp <;> cases t._rtsp <;> cases t._ts <;> cases t._fmp4 <;> cases t._hls <;>
      cases t._ring <;>
      simp [Ring.readerCount, Bool.or_assoc, Bool.or_comm, Bool.or_left_comm]
  have recheck : ∀ (time : Nat) (t : MultiMediaSourceMuxer),
      (t._is_enable = false ∨ delay < time - t._last_check) →
      (isEnabled delay time t).1 = consumerPresent t ∧
      (isEnabled delay time t).2 =
        { t with _is_enable := consumerPresent t,
                 _last_check := if consumerPresent t = true then time else t._last_check } := by
    intro time t h
    have hc : (!t._is_enable || decide (elapsedTime time t._last_check > delay)) = true := by
      rcases h with h | h
      · simp [h]
      · simp [elapsedTime, h]
    rw [← hany]
    simp only [isEnabled, hc, if_true]
    cases anyConsumer t <;> simp
  have hold : ∀ (time : Nat) (t : MultiMediaSourceMuxer),
      t._is_enable = true → time - t._last_check ≤ delay →
      isEnabled delay time t = (true, t) := by
    intro time t he hw
    have hnot : ¬ (time - t._last_check > delay) := by omega
    simp [isEnabled, he, elapsedTime, hnot]
  refine ⟨?_, recheck now s, ?_, ?_⟩
  · intro h0
    rw [(recheck now s (Or.inl h0)).1]
    unfold consumerPresent ringReaders
    cases s._rtmp <;> cases s._rtsp <;> cases s._ts <;> cases s._fmp4 <;> cases s._hls <;>
      cases s._ring <;>
      simp only [List.filterMap_cons, List.filterMap_nil, id, List.any_cons, List.any_nil,
        Bool.or_false, Bool.or_eq_true, Bool.false_or, decide_eq_true_eq, Ring.readerCount,
        ne_eq, not_true_eq_false, Option.some.injEq, false_or, or_false, false_and,
        exists_false, or_and_right, exists_or, exists_eq_left', decide_False, decide_True,
        Bool.false_eq_true, reduceCtorEq] <;>
      tauto
  · intro he _ hw
    exact hold now s he hw
  · intro hre hcp
    have h1 := recheck now s hre
    have he : (isEnabled delay now s).2._is_enable = true := by rw [h1.2]; exact hcp
    have hl : (isEnabled delay now s).2._last_check = now := by rw [h1.2]; simp [hcp]
    refine ⟨h1.1.trans hcp, he, hl, ?_⟩
    intro s2 later h2e h2l _
    rw [he] at h2e
    rw [hl] at h2l
    refine ⟨?_, ?_⟩
    · intro hw
      exact hold later s2 h2e (by rw [h2l]; exact hw)
    · intro hw
      have h3 := recheck later s2 (Or.inr (by rw [h2l]; exact hw))
      refine ⟨h3.1, ?_, ?_⟩
      · rw [h3.2]
      · rw [h3.2]
        simp only [h2l]

/-- C6 (witness): cooldown 1000 ms on the watched muxer. The call at time 0
re-checks and finds the viewer; the viewer then leaves; the call at 900 still
returns true; the call at 1001 re-checks, returns false and leaves the timer
at 0. -/
theorem C6_isEnabled_debounce_witness :
    (isEnabled 1000 0 watchedMuxer).1 = true ∧
    (isEnabled 1000 0 watchedMuxer).2._last_check = 0 ∧
    (isEnabled 1000 900 (viewerLeaves (isEnabled 1000 0 watchedMuxer).2)).1 = true ∧
    (isEnabled 1000 1001 (viewerLeaves (isEnabled 1000 0 watchedMuxer).2)).1 = false ∧
    (isEnabled 1000 1001 (viewerLeaves (isEnabled 1000 0 watchedMuxer).2)).2._last_check = 0 :=
  have h := (C6_isEnabled_debounce 1000 0 watchedMuxer).2.2.2 (Or.inl (by decide)) (by decide)
  have h2 := h.2.2.2 (viewerLeaves (isEnabled 1000 0 watchedMuxer).2)
  ⟨h.1, h.2.2.1,
   congrArg Prod.fst ((h2 900 rfl rfl (by decide)).1 (by decide)),
   ((h2 1001 rfl rfl (by decide)).2 (by decide)).1.trans (by decide),
   ((h2 1001 rfl rfl (by decide)).2 (by decide)).2.2.trans (by decide)⟩

end mediakit
